import Mathlib

/-!
Verification development for the `inferprompt` prompt-structure optimizer.

The development shallowly embeds the core of the repository:

* `app/models/prompt.py` — the enums and data records;
* `app/core/asp_engine.py` — the ASP structure solver (`ASPEngine`): its answer-set
  program over component/position assignments, the fact generation and its LRU cache,
  the fallback solve, and the feedback update `update_efficacy` together with its
  database writes;
* `app/services/prompt_optimizer.py` — the orchestrator (`PromptOptimizer.optimize`),
  the module-global bounded result cache, the cache key construction, and
  `provide_feedback`.

Python objects that are mutated in place (the `PromptComponent` instances shared
between the result cache and callers) are modelled with an explicit heap: a list of
components indexed by allocation order, so that aliasing between the cache and the
values handed to callers is observable.  Python `float` values in the source are
exact decimal constants; they are modelled as rationals.  Fallible external calls
(the meta-LLM analyzer/generator, the database session) are modelled as
`Except`-valued oracles supplied by the environment.
-/

/-- Exact rational constants standing for the Python float literals of the source
(`0.8`, `0.5`, ...).  `mkRat a b` is the exact value a/b. -/
abbrev q (a : Int) (b : Nat) : ℚ := mkRat a b

/-- Executable twin of rational addition (kernel-reducible, unlike `Rat.add` which
is marked irreducible upstream). -/
def qAdd (a b : ℚ) : ℚ := mkRat (a.num * b.den + b.num * a.den) (a.den * b.den)

/-- Executable twin of rational multiplication. -/
def qMul (a b : ℚ) : ℚ := mkRat (a.num * b.num) (a.den * b.den)

theorem qAdd_eq (a b : ℚ) : qAdd a b = a + b := by
  unfold qAdd
  rw [Rat.mkRat_eq_div]
  have ha : (a.den : ℚ) ≠ 0 := by positivity
  have hb : (b.den : ℚ) ≠ 0 := by positivity
  conv_rhs => rw [← Rat.num_div_den a, ← Rat.num_div_den b]
  rw [div_add_div _ _ ha hb]
  push_cast
  ring_nf

theorem qMul_eq (a b : ℚ) : qMul a b = a * b := by
  unfold qMul
  rw [Rat.mkRat_eq_div]
  conv_rhs => rw [← Rat.num_div_den a, ← Rat.num_div_den b]
  rw [div_mul_div_comm]
  push_cast
  ring_nf

/-- Fold a list of rationals with `qAdd` (executable twin of a Python `sum`). -/
def qSum (l : List ℚ) : ℚ := l.foldr qAdd 0

theorem qSum_eq (l : List ℚ) : qSum l = (l.map id).sum := by
  unfold qSum
  induction l with
  | nil => simp
  | cons x xs ih => simp [qAdd_eq, ih]

/-! ### The data model (`app/models/prompt.py`) -/

/-- `ComponentType(str, Enum)` from `app/models/prompt.py`.  (`example` is a Lean
keyword, hence the trailing underscore on that constructor.) -/
inductive ComponentType where
  | instruction
  | context
  | example_
  | constraint
  | output_format
deriving DecidableEq, Repr

/-- The `.value` string of each `ComponentType` member. -/
def ComponentType.value : ComponentType → String
  | .instruction => "instruction"
  | .context => "context"
  | .example_ => "example"
  | .constraint => "constraint"
  | .output_format => "output_format"

/-- `TaskType(str, Enum)` from `app/models/prompt.py`. -/
inductive TaskType where
  | deduction
  | induction
  | abduction
  | comparison
  | counterfactual
deriving DecidableEq, Repr

/-- The `.value` string of each `TaskType` member. -/
def TaskType.value : TaskType → String
  | .deduction => "deduction"
  | .induction => "induction"
  | .abduction => "abduction"
  | .comparison => "comparison"
  | .counterfactual => "counterfactual"

/-- `BehaviorType(str, Enum)` from `app/models/prompt.py`. -/
inductive BehaviorType where
  | precision
  | creativity
  | step_by_step
  | conciseness
  | error_checking
deriving DecidableEq, Repr

/-- The `.value` string of each `BehaviorType` member. -/
def BehaviorType.value : BehaviorType → String
  | .precision => "precision"
  | .creativity => "creativity"
  | .step_by_step => "step_by_step"
  | .conciseness => "conciseness"
  | .error_checking => "error_checking"

/-- The Python union `Union[TaskType, BehaviorType]` used as the second half of an
efficacy key, modelled as a tagged sum. -/
inductive TaskOrBehavior where
  | task (t : TaskType)
  | behavior (b : BehaviorType)
deriving DecidableEq, Repr

/-- The `.value` string of a task-or-behavior. -/
def TaskOrBehavior.value : TaskOrBehavior → String
  | .task t => t.value
  | .behavior b => b.value

/-- `PromptComponent` (pydantic model): type, textual content and position. -/
structure PromptComponent where
  type : ComponentType
  content : String
  position : Nat
deriving DecidableEq, Repr

/-- `OptimizationRequest` (pydantic model).  `target_model` defaults to "gpt-4" and
is a plain string; `domain` is optional. -/
structure OptimizationRequest where
  user_prompt : String
  target_tasks : List TaskType := []
  target_behaviors : List BehaviorType := []
  target_model : String := "gpt-4"
  domain : Option String := none
deriving DecidableEq, Repr

/-! ### Python string helpers

`str.upper()` and the lexicographic string order used by Python's `sorted`,
modelled character-by-character over the code points so that they evaluate inside
the kernel. -/

/-- Python `str.upper()` restricted to the ASCII strings of this code base. -/
def pyUpper (s : String) : String := String.mk (s.data.map Char.toUpper)

/-- Lexicographic comparison of character lists by code point — the order Python's
`sorted` uses on `str`. -/
def charListLe : List Char → List Char → Bool
  | [], _ => true
  | _ :: _, [] => false
  | a :: as, b :: bs => if a = b then charListLe as bs else decide (a < b)

/-- Python string `<=`. -/
def pyStrLe (a b : String) : Bool := charListLe a.data b.data

theorem charListLe_total : ∀ as bs, charListLe as bs = true ∨ charListLe bs as = true
  | [], _ => .inl rfl
  | _ :: _, [] => .inr rfl
  | a :: as, b :: bs => by
    by_cases hab : a = b
    · subst hab
      simpa [charListLe] using charListLe_total as bs
    · rcases lt_or_gt_of_ne hab with h | h
      · exact .inl (by simp [charListLe, hab, h])
      · exact .inr (by simp [charListLe, Ne.symm hab, h])

theorem charListLe_trans : ∀ as bs cs, charListLe as bs = true → charListLe bs cs = true →
    charListLe as cs = true
  | [], _, _, _, _ => rfl
  | a :: as, b :: bs, [], _, h2 => by simp [charListLe] at h2
  | a :: as, [], cs, h1, _ => by simp [charListLe] at h1
  | a :: as, b :: bs, c :: cs, h1, h2 => by
    by_cases hab : a = b <;> by_cases hbc : b = c
    · subst hab; subst hbc
      simp only [charListLe, if_pos rfl] at h1 h2 ⊢
      exact charListLe_trans as bs cs h1 h2
    · subst hab
      simp only [charListLe, if_pos rfl] at h1
      simp only [charListLe, if_neg hbc] at h2 ⊢
      exact h2
    · subst hbc
      simp only [charListLe, if_neg hab] at h1 ⊢
      exact h1
    · simp only [charListLe, if_neg hab, if_neg hbc, decide_eq_true_eq] at h1 h2
      have hac : a < c := lt_trans h1 h2
      simp [charListLe, ne_of_lt hac, hac]

theorem charListLe_antisymm : ∀ as bs, charListLe as bs = true → charListLe bs as = true →
    as = bs
  | [], [], _, _ => rfl
  | [], _ :: _, _, h2 => by simp [charListLe] at h2
  | _ :: _, [], h1, _ => by simp [charListLe] at h1
  | a :: as, b :: bs, h1, h2 => by
    by_cases hab : a = b
    · subst hab
      simp only [charListLe, if_pos rfl] at h1 h2
      rw [charListLe_antisymm as bs h1 h2]
    · simp only [charListLe, if_neg hab, if_neg (Ne.symm hab), decide_eq_true_eq] at h1 h2
      exact absurd h1 (lt_asymm h2)

/-- The `Prop` form of the Python string order, used to drive `insertionSort`. -/
def PyStrLeP (a b : String) : Prop := pyStrLe a b = true

instance : DecidableRel PyStrLeP := fun a b => inferInstanceAs (Decidable (_ = true))

instance : IsTotal String PyStrLeP :=
  ⟨fun a b => charListLe_total a.data b.data⟩

instance : IsTrans String PyStrLeP :=
  ⟨fun a b c => charListLe_trans a.data b.data c.data⟩

instance : IsAntisymm String PyStrLeP :=
  ⟨fun a b h1 h2 => by
    cases a; cases b
    exact congrArg String.mk (charListLe_antisymm _ _ h1 h2)⟩

/-- Python's `sorted` on a list of strings. -/
def pySorted (l : List String) : List String := List.insertionSort PyStrLeP l

/-- Two lists with the same elements (in any order) have the same `pySorted` image:
Python's `sorted` is a canonical form of the multiset of strings. -/
theorem pySorted_perm_eq {l1 l2 : List String} (h : l1.Perm l2) :
    pySorted l1 = pySorted l2 := by
  have p1 := List.perm_insertionSort PyStrLeP l1
  have p2 := List.perm_insertionSort PyStrLeP l2
  exact List.eq_of_perm_of_sorted (p1.trans (h.trans p2.symm))
    (List.sorted_insertionSort PyStrLeP l1) (List.sorted_insertionSort PyStrLeP l2)

/-! ### Association lists (Python `dict`s in insertion order) -/

/-- Python `d.get(k)` / `k in d` on an insertion-ordered association list. -/
def alookup {κ ν : Type} [DecidableEq κ] (k : κ) : List (κ × ν) → Option ν
  | [] => none
  | (k', v) :: rest => if k' = k then some v else alookup k rest

/-- Python `d[k] = v`: overwrite in place if the key exists, else append. -/
def aupsert {κ ν : Type} [DecidableEq κ] (k : κ) (v : ν) : List (κ × ν) → List (κ × ν)
  | [] => [(k, v)]
  | (k', v') :: rest => if k' = k then (k', v) :: rest else (k', v') :: aupsert k v rest

theorem alookup_aupsert_self {κ ν : Type} [DecidableEq κ] (k : κ) (v : ν) :
    ∀ l : List (κ × ν), alookup k (aupsert k v l) = some v
  | [] => by simp [alookup, aupsert]
  | (k', v') :: rest => by
    by_cases h : k' = k
    · simp [alookup, aupsert, h]
    · simp only [aupsert, if_neg h, alookup]
      exact alookup_aupsert_self k v rest

theorem aupsert_aupsert_self {κ ν : Type} [DecidableEq κ] (k : κ) (v : ν) :
    ∀ l : List (κ × ν), aupsert k v (aupsert k v l) = aupsert k v l
  | [] => by simp [aupsert]
  | (k', v') :: rest => by
    by_cases h : k' = k
    · simp [aupsert, h]
    · simp only [aupsert, if_neg h]
      rw [aupsert_aupsert_self k v rest]

theorem alookup_none_drop_one {κ ν : Type} [DecidableEq κ] (k : κ) (l : List (κ × ν))
    (h : alookup k l = none) : alookup k (l.drop 1) = none := by
  cases l with
  | nil => simpa using h
  | cons p rest =>
    obtain ⟨k', v⟩ := p
    by_cases hk : k' = k
    · simp [alookup, hk] at h
    · simpa [alookup, hk] using h

theorem alookup_append_single {κ ν : Type} [DecidableEq κ] (k : κ) (v : ν)
    (l : List (κ × ν)) (h : alookup k l = none) : alookup k (l ++ [(k, v)]) = some v := by
  induction l with
  | nil => simp [alookup]
  | cons p rest ih =>
    obtain ⟨k', v'⟩ := p
    by_cases hk : k' = k
    · simp [alookup, hk] at h
    · simp only [alookup, if_neg hk] at h ⊢
      exact ih h

/-! ### The ASP engine (`app/core/asp_engine.py`)

`base_program` assigns each of the five components exactly one position in 1..5
(`1 ... 1 :- component(C)` with distinctness), requires an instruction whenever an
example or a constraint is placed, and derives a single `effectiveness` atom whose
value (100/80/60/40) depends only on whether the instruction sits at position 1 and
whether the example comes after the instruction.  The generated facts
(`target_task`, `component_efficacy`, `position_effect`, `weight`,
`model_specific_efficacy`, `domain_efficacy`) are inert: no rule of `base_program`
mentions any of them, and only `prompt_position/2` and `effectiveness/1` are shown.
An answer set is therefore exactly an injective assignment of the five components
to positions 1..5, paired with its effectiveness value, and the optimum reported
under maximization is an assignment with maximal effectiveness. -/

/-- The five `component(...)` facts, in program order. -/
def allComponents : List ComponentType :=
  [.instruction, .context, .example_, .constraint, .output_format]

/-- An assignment of components to positions, as the list of `prompt_position(C, P)`
atoms for the five components in program order. -/
abbrev AspAssign := List (ComponentType × Nat)

/-- The position assigned to a component (0 if unassigned — never hit on candidates). -/
def posOf (a : AspAssign) (c : ComponentType) : Nat := (alookup c a).getD 0

/-- The position domain `P = 1..5`. -/
def positionDomain : List Nat := [1, 2, 3, 4, 5]

/-- All position choices generated by the cardinality rule
`1 ... 1 :- component(C)`: one position from 1..5 for each of the five components
(distinctness is a separate integrity constraint, checked below). -/
def allPositionCodes : List (List Nat) :=
  positionDomain.flatMap fun p1 =>
    positionDomain.flatMap fun p2 =>
      positionDomain.flatMap fun p3 =>
        positionDomain.flatMap fun p4 =>
          positionDomain.map fun p5 => [p1, p2, p3, p4, p5]

/-- No two listed positions coincide. -/
def nodupPositions : List Nat → Bool
  | [] => true
  | p :: ps => !(ps.contains p) && nodupPositions ps

/-- The integrity constraints of `base_program`: no shared positions, and each of
`example` and `constraint` requires `instruction` to be placed (vacuous for total
assignments, but checked as written). -/
def aspSatisfiesConstraints (a : AspAssign) : Bool :=
  nodupPositions (a.map Prod.snd) &&
  (!(a.any fun cp => cp.1 == ComponentType.example_) ||
    (a.any fun cp => cp.1 == ComponentType.instruction)) &&
  (!(a.any fun cp => cp.1 == ComponentType.constraint) ||
    (a.any fun cp => cp.1 == ComponentType.instruction))

/-- All answer sets (feasible assignments) of the grounded program. -/
def aspFeasibleAssignments : List AspAssign :=
  (allPositionCodes.map (allComponents.zip ·)).filter aspSatisfiesConstraints

/-- `instruction_first :- prompt_position(instruction, 1)`. -/
def instruction_first (a : AspAssign) : Bool := posOf a .instruction == 1

/-- `example_after_instruction :- prompt_position(instruction, P1),
prompt_position(example, P2), P1 < P2`. -/
def example_after_instruction (a : AspAssign) : Bool :=
  decide (posOf a .instruction < posOf a .example_)

/-- The single `effectiveness(S)` atom derived for an assignment: a constant chosen
among 100/80/60/40 by the two ordering flags.  None of the weighted-sum facts enter
this value. -/
def aspEffectiveness (a : AspAssign) : Nat :=
  if instruction_first a then
    (if example_after_instruction a then 100 else 80)
  else
    (if example_after_instruction a then 60 else 40)

/-- The optimal objective value of `#maximize ... effectiveness ...` over all
answer sets. -/
def aspMaxEffectiveness : Nat :=
  (aspFeasibleAssignments.map aspEffectiveness).foldr max 0

/-- The optimal answer set the solver reports (with `--opt-mode=opt` the last model
delivered is optimal; clingo is deterministic on this fixed program, and we fix the
first enumerated optimum as the reported one). -/
def aspBestAssignment : AspAssign :=
  (aspFeasibleAssignments.filter fun a =>
    aspEffectiveness a == aspMaxEffectiveness).headD []

/-- `f"[{comp_type.value.upper()} CONTENT]"`. -/
def placeholder_content (c : ComponentType) : String :=
  "[" ++ pyUpper c.value ++ " CONTENT]"

/-- `components.sort(key=lambda x: x.position)`. -/
def sortByPosition (cs : List PromptComponent) : List PromptComponent :=
  List.insertionSort (fun c1 c2 => c1.position ≤ c2.position) cs

/-- Extraction of the returned component list from the shown `prompt_position`
atoms of a model: placeholder content, then sorted by position. -/
def extractComponents (a : AspAssign) : List PromptComponent :=
  sortByPosition (a.map fun cp => ⟨cp.1, placeholder_content cp.1, cp.2⟩)

/-- The identity structure instruction=1, context=2, example=3, constraint=4,
output_format=5, which is both the first enumerated optimum of the ASP program and
the hardcoded fallback structure. -/
def standardAssignment : AspAssign :=
  [(.instruction, 1), (.context, 2), (.example_, 3), (.constraint, 4), (.output_format, 5)]

/-- The component list extracted from `standardAssignment`. -/
def standardComponents : List PromptComponent :=
  [⟨.instruction, "[INSTRUCTION CONTENT]", 1⟩, ⟨.context, "[CONTEXT CONTENT]", 2⟩,
   ⟨.example_, "[EXAMPLE CONTENT]", 3⟩, ⟨.constraint, "[CONSTRAINT CONTENT]", 4⟩,
   ⟨.output_format, "[OUTPUT_FORMAT CONTENT]", 5⟩]

set_option maxRecDepth 1000000 in
theorem aspMaxEffectiveness_eq : aspMaxEffectiveness = 100 := by decide

set_option maxRecDepth 1000000 in
theorem aspBestAssignment_eq : aspBestAssignment = standardAssignment := by decide

theorem extract_best_eq : extractComponents aspBestAssignment = standardComponents := by
  rw [aspBestAssignment_eq]
  decide

/-! ### Engine state and defaults (`ASPEngine.__init__`) -/

/-- The key type of the `weights` dict: the string "position" or a task/behavior. -/
inductive WeightKey where
  | position
  | task (t : TaskType)
  | behavior (b : BehaviorType)
deriving DecidableEq, Repr

/-- The call key of the `lru_cache`-decorated `generate_asp_facts`:
`(tasks_tuple, behaviors_tuple, target_model, domain)`. -/
abbrev FactsKey := List TaskType × List BehaviorType × Option String × Option String

/-- The mutable state of an `ASPEngine` instance (the database session is modelled
separately).  `factsCacheKeys` is the key set memoized by the LRU cache on
`generate_asp_facts`, most recently used first. -/
structure ASPEngineState where
  component_efficacy : List ((ComponentType × TaskOrBehavior) × ℚ)
  position_effects : List ((ComponentType × Nat) × ℚ)
  weights : List (WeightKey × ℚ)
  model_adjustments : List (String × List ((ComponentType × BehaviorType) × ℚ))
  domain_adjustments : List (String × List ((ComponentType × BehaviorType) × ℚ))
  factsCacheKeys : List FactsKey
deriving DecidableEq, Repr

/-- Default efficacy values from `ASPEngine.__init__`. -/
def defaultComponentEfficacy : List ((ComponentType × TaskOrBehavior) × ℚ) :=
  [((.instruction, .task .deduction), q 8 10),
   ((.example_, .task .deduction), q 9 10),
   ((.constraint, .behavior .precision), q 7 10),
   ((.output_format, .behavior .step_by_step), q 8 10),
   ((.instruction, .behavior .precision), q 7 10),
   ((.context, .task .abduction), q 75 100),
   ((.example_, .behavior .step_by_step), q 85 100)]

/-- Default position effects from `ASPEngine.__init__`. -/
def defaultPositionEffects : List ((ComponentType × Nat) × ℚ) :=
  [((.instruction, 1), q 9 10), ((.context, 2), q 7 10), ((.example_, 3), q 8 10)]

/-- Default weights from `ASPEngine.__init__`: 0.5 for "position", 1.0 per task and
behavior. -/
def defaultWeights : List (WeightKey × ℚ) :=
  [(.position, q 5 10),
   (.task .deduction, 1), (.task .induction, 1), (.task .abduction, 1),
   (.task .comparison, 1), (.task .counterfactual, 1),
   (.behavior .precision, 1), (.behavior .creativity, 1), (.behavior .step_by_step, 1),
   (.behavior .conciseness, 1), (.behavior .error_checking, 1)]

/-- Model-specific adjustments from `ASPEngine.__init__`. -/
def defaultModelAdjustments : List (String × List ((ComponentType × BehaviorType) × ℚ)) :=
  [("gpt-4", [((.instruction, .precision), q 9 10)]),
   ("claude", [((.example_, .precision), q 85 100)]),
   ("llama", [((.constraint, .precision), q 75 100)])]

/-- Domain-specific adjustments from `ASPEngine.__init__`. -/
def defaultDomainAdjustments : List (String × List ((ComponentType × BehaviorType) × ℚ)) :=
  [("legal", [((.context, .precision), q 95 100)]),
   ("medical", [((.constraint, .step_by_step), q 9 10)]),
   ("code", [((.example_, .precision), q 85 100)])]

/-- The engine state after `ASPEngine.__init__` (with nothing overlaid from the
database). -/
def initialEngineState : ASPEngineState :=
  { component_efficacy := defaultComponentEfficacy
    position_effects := defaultPositionEffects
    weights := defaultWeights
    model_adjustments := defaultModelAdjustments
    domain_adjustments := defaultDomainAdjustments
    factsCacheKeys := [] }

/-- Registration of a call key in an `lru_cache(maxsize=32)`: a hit is moved to the
front, a miss is inserted in front with the least recently used key dropped at
capacity. -/
def lruRegister (k : FactsKey) (keys : List FactsKey) : List FactsKey :=
  if k ∈ keys then k :: keys.erase k else (k :: keys).take 32

/-- How `ASPEngine.solve`'s interaction with clingo turns out: a model list whose
last member is optimal, an empty model list, or an exception somewhere in the
grounding/solving steps. -/
inductive SolverOutcome where
  | success
  | noModel
  | raised
deriving DecidableEq, Repr

/-- `ASPEngine._fallback_solve`: the hardcoded structure and score 100.0 (the
target arguments are ignored by the source function). -/
def _fallback_solve (_target_tasks : List TaskType) (_target_behaviors : List BehaviorType)
    (_target_model : Option String) (_domain : Option String) :
    List PromptComponent × ℚ :=
  (allComponents.zip [1, 2, 3, 4, 5] |>.map fun cp =>
    ⟨cp.1, placeholder_content cp.1, cp.2⟩, 100)

/-- `ASPEngine.solve`.  The call to `generate_asp_facts` registers the call key in
its LRU cache; the generated facts themselves are inert in `base_program` (no rule
mentions them and they are not shown), so the model set and the extracted result do
not depend on them.  On an exception or an empty model list the hardcoded fallback
is returned; on success the optimal model is extracted: its `prompt_position`
atoms become placeholder components sorted by position and its `effectiveness`
atom becomes the score. -/
def ASPEngine.solve (st : ASPEngineState) (target_tasks : List TaskType)
    (target_behaviors : List BehaviorType) (target_model : Option String)
    (domain : Option String) (outcome : SolverOutcome) :
    (List PromptComponent × ℚ) × ASPEngineState :=
  let newKeys := lruRegister (target_tasks, target_behaviors, target_model, domain)
    st.factsCacheKeys
  let st1 := { st with factsCacheKeys := newKeys }
  match outcome with
  | .raised => (_fallback_solve target_tasks target_behaviors target_model domain, st1)
  | .noModel => (_fallback_solve target_tasks target_behaviors target_model domain, st1)
  | .success =>
      ((extractComponents aspBestAssignment, (aspEffectiveness aspBestAssignment : ℚ)), st1)

/-! ### `ASPEngine.update_efficacy` and its database writes -/

/-- A row of the `component_efficacy` table (`ComponentEfficacyDB`). -/
structure ComponentEfficacyRow where
  component_type : ComponentType
  task_type : Option TaskType
  behavior_type : Option BehaviorType
  efficacy_value : ℚ
deriving DecidableEq, Repr

/-- The filter `update_efficacy` queries with: on a task key it matches
component_type and task_type, on a behavior key component_type and behavior_type
(the other column is not constrained). -/
def dbMatches (component : ComponentType) (task_or_behavior : TaskOrBehavior)
    (row : ComponentEfficacyRow) : Bool :=
  match task_or_behavior with
  | .task t => row.component_type == component && row.task_type == some t
  | .behavior b => row.component_type == component && row.behavior_type == some b

/-- The row `update_efficacy` inserts when no existing row matches. -/
def freshEfficacyRow (component : ComponentType) (task_or_behavior : TaskOrBehavior)
    (new_value : ℚ) : ComponentEfficacyRow :=
  match task_or_behavior with
  | .task t => ⟨component, some t, none, new_value⟩
  | .behavior b => ⟨component, none, some b, new_value⟩

/-- The net database effect of `update_efficacy`'s session work when it commits:
overwrite the first matching row's value, or append a fresh row. -/
def dbUpsert (component : ComponentType) (task_or_behavior : TaskOrBehavior)
    (new_value : ℚ) : List ComponentEfficacyRow → List ComponentEfficacyRow
  | [] => [freshEfficacyRow component task_or_behavior new_value]
  | row :: rest =>
    if dbMatches component task_or_behavior row then
      { row with efficacy_value := new_value } :: rest
    else
      row :: dbUpsert component task_or_behavior new_value rest

/-- `ASPEngine.update_efficacy`: updates the in-memory map, clears the facts
cache, then upserts the database row.  `dbOk` is whether the session work goes
through; when it raises, the transaction is rolled back (table unchanged) and the
exception is re-raised — but the in-memory updates have already happened. -/
def ASPEngine.update_efficacy (st : ASPEngineState) (db : List ComponentEfficacyRow)
    (component : ComponentType) (task_or_behavior : TaskOrBehavior) (new_value : ℚ)
    (dbOk : Bool) :
    ASPEngineState × List ComponentEfficacyRow × Except Unit Unit :=
  let st1 := { st with
    component_efficacy := aupsert (component, task_or_behavior) new_value st.component_efficacy
    factsCacheKeys := [] }
  if dbOk then
    (st1, dbUpsert component task_or_behavior new_value db, .ok ())
  else
    (st1, db, .error ())

/-! ### The prompt optimizer (`app/services/prompt_optimizer.py`)

`PromptComponent` objects are Python objects mutated in place (step 3 overwrites
`component.content`, and on a cache miss the very objects handed back to the
caller are also stored in the module-global `optimization_cache`).  The heap is a
list of components indexed by allocation order; an "address" is an index into it.
-/

/-- `OPTIMIZATION_CACHE_SIZE = 32`. -/
def OPTIMIZATION_CACHE_SIZE : Nat := 32

/-- A value of `optimization_cache`: the (shared, mutable) component objects and
the effectiveness score stored for a key. -/
structure CacheEntry where
  componentAddrs : List Nat
  effectiveness_score : ℚ
deriving DecidableEq, Repr

/-- The whole mutable state visible to the optimizer: its engine (with the
database the engine writes through), the object heap, and the module-global
`optimization_cache` in insertion order. -/
structure SysState where
  engine : ASPEngineState
  engineDb : List ComponentEfficacyRow
  heap : List PromptComponent
  optimization_cache : List (String × CacheEntry)
deriving DecidableEq, Repr

/-- Dereference an address (never out of range in reachable states). -/
def readComp (heap : List PromptComponent) (a : Nat) : PromptComponent :=
  heap.getD a ⟨.instruction, "", 0⟩

/-- Dereference a list of addresses. -/
def readComps (heap : List PromptComponent) (addrs : List Nat) : List PromptComponent :=
  addrs.map (readComp heap)

/-- Allocate a list of fresh component objects; returns the new heap and their
addresses. -/
def allocComponents (heap : List PromptComponent) (cs : List PromptComponent) :
    List PromptComponent × List Nat :=
  (heap ++ cs, List.range' heap.length cs.length)

/-- Allocate one fresh component object. -/
def allocComponent (heap : List PromptComponent) (c : PromptComponent) :
    List PromptComponent × Nat :=
  (heap ++ [c], heap.length)

/-- In-place mutation `component.content = s` of the object at address `a`. -/
def setContent (heap : List PromptComponent) (a : Nat) (s : String) :
    List PromptComponent :=
  heap.set a { readComp heap a with content := s }

/-- The cache-hit deep copy:
`[PromptComponent(type=comp.type, content=comp.content, position=comp.position) for comp in components]`
— fresh objects with the same field values. -/
def deepCopyComponents (heap : List PromptComponent) (addrs : List Nat) :
    List PromptComponent × List Nat :=
  allocComponents heap (readComps heap addrs)

/-- Insert into the full cache: at capacity, `next(iter(cache))` — the oldest
key — is popped first, then the new entry is appended. -/
def cachePut (cache : List (String × CacheEntry)) (k : String) (e : CacheEntry) :
    List (String × CacheEntry) :=
  (if OPTIMIZATION_CACHE_SIZE ≤ cache.length then cache.drop 1 else cache) ++ [(k, e)]

/-- The analyzer output consumed by `optimize` (shape of
`MetaLLMAnalyzer.analyze_task`'s result). -/
structure TaskAnalysis where
  detected_tasks : List TaskType
  detected_behaviors : List BehaviorType
  domain_hint : Option String
deriving DecidableEq, Repr

/-- The fallible external collaborators of one `optimize`/`solve` round: the
meta-LLM analyzer and generators (each call may raise), and how the clingo
interaction inside `ASPEngine.solve` turns out. -/
structure Externals where
  analyze_task : String → Except Unit TaskAnalysis
  solverOutcome : SolverOutcome
  generate_component_content : ComponentType → TaskAnalysis → String → Except Unit String
  assemble_prompt : List PromptComponent → Except Unit String
  generate_rationale : List PromptComponent → TaskAnalysis → ℚ → Except Unit String

/-- Python `a or b` on lists (an empty list is falsy). -/
def pyOrList {α : Type} (a b : List α) : List α := if a.isEmpty then b else a

/-- Python `a or b` where `a` is an optional string (`None` and `""` are falsy). -/
def pyOrDomain (a b : Option String) : Option String :=
  match a with
  | none => b
  | some s => if s = "" then b else some s

/-- Python `domain or 'none'` as interpolated into the cache key. -/
def pyOrStr (a : Option String) (dflt : String) : String :=
  match a with
  | none => dflt
  | some s => if s = "" then dflt else s

/-- `PromptOptimizer._generate_cache_key`. -/
def _generate_cache_key (target_tasks : List TaskType) (target_behaviors : List BehaviorType)
    (target_model : String) (domain : Option String) : String :=
  let tasks_str := String.intercalate "," (pySorted (target_tasks.map TaskType.value))
  let behaviors_str := String.intercalate "," (pySorted (target_behaviors.map BehaviorType.value))
  tasks_str ++ "|" ++ behaviors_str ++ "|" ++ target_model ++ "|" ++ pyOrStr domain "none"

/-- The returned `OptimizedPrompt`, with the component objects by address. -/
structure OptimizedPromptRef where
  componentAddrs : List Nat
  full_prompt : String
  rationale : String
  effectiveness_score : ℚ
deriving DecidableEq, Repr

/-- Step 3 of `optimize`: `component.content = generate_component_content(...)`
for each resulting component object, stopping at the first raised exception
(mutations already made persist). -/
def generateContents (heap : List PromptComponent) (addrs : List Nat) (ext : Externals)
    (analysis : TaskAnalysis) (user_prompt : String) :
    List PromptComponent × Except Unit Unit :=
  match addrs with
  | [] => (heap, .ok ())
  | a :: rest =>
    match ext.generate_component_content (readComp heap a).type analysis user_prompt with
    | .error e => (heap, .error e)
    | .ok content => generateContents (setContent heap a content) rest ext analysis user_prompt

/-- Step 1 resolution: `request.target_tasks or task_analysis["detected_tasks"]`. -/
def resolvedTasks (req : OptimizationRequest) (an : TaskAnalysis) : List TaskType :=
  pyOrList req.target_tasks an.detected_tasks

/-- Step 1 resolution of the behaviors. -/
def resolvedBehaviors (req : OptimizationRequest) (an : TaskAnalysis) : List BehaviorType :=
  pyOrList req.target_behaviors an.detected_behaviors

/-- Step 1 resolution: `request.domain or task_analysis.get("domain_hint")`. -/
def resolvedDomain (req : OptimizationRequest) (an : TaskAnalysis) : Option String :=
  pyOrDomain req.domain an.domain_hint

/-- The cache key `optimize` computes for a request and its analysis. -/
def cacheKeyOf (req : OptimizationRequest) (an : TaskAnalysis) : String :=
  _generate_cache_key (resolvedTasks req an) (resolvedBehaviors req an)
    req.target_model (resolvedDomain req an)

/-- Steps 3–6 of `optimize`'s `try`-block, after the structure has been resolved
to component addresses and a score: per-component content generation (mutating in
place), assembly, rationale.  Step 6 (`_save_to_db`) catches its own exceptions
internally and its returned id is discarded, so it has no observable effect
here. -/
def optimizeSteps3to6 (req : OptimizationRequest) (ext : Externals) (an : TaskAnalysis)
    (st1 : SysState) (addrs : List Nat) (effectiveness_score : ℚ) (solverCalled : Bool) :
    SysState × Bool × Except Unit OptimizedPromptRef :=
  match generateContents st1.heap addrs ext an req.user_prompt with
  | (heap2, .error e) => ({ st1 with heap := heap2 }, solverCalled, .error e)
  | (heap2, .ok _) =>
    match ext.assemble_prompt (readComps heap2 addrs) with
    | .error e => ({ st1 with heap := heap2 }, solverCalled, .error e)
    | .ok full_prompt =>
      match ext.generate_rationale (readComps heap2 addrs) an effectiveness_score with
      | .error e => ({ st1 with heap := heap2 }, solverCalled, .error e)
      | .ok rationale =>
          ({ st1 with heap := heap2 }, solverCalled,
           .ok ⟨addrs, full_prompt, rationale, effectiveness_score⟩)

/-- The `try`-block of `PromptOptimizer.optimize` (steps 1–6).  Returns the state
as mutated up to the point of return or exception, whether the ASP solver was
invoked, and the produced result or the raised exception. -/
def PromptOptimizer.optimizeTry (st : SysState) (req : OptimizationRequest)
    (ext : Externals) : SysState × Bool × Except Unit OptimizedPromptRef :=
  match ext.analyze_task req.user_prompt with
  | .error e => (st, false, .error e)
  | .ok task_analysis =>
    match alookup (cacheKeyOf req task_analysis) st.optimization_cache with
    | some entry =>
        let copied := deepCopyComponents st.heap entry.componentAddrs
        optimizeSteps3to6 req ext task_analysis { st with heap := copied.1 } copied.2
          entry.effectiveness_score false
    | none =>
        let solved := ASPEngine.solve st.engine (resolvedTasks req task_analysis)
          (resolvedBehaviors req task_analysis) (some req.target_model)
          (resolvedDomain req task_analysis) ext.solverOutcome
        let allocated := allocComponents st.heap solved.1.1
        let newCache := cachePut st.optimization_cache (cacheKeyOf req task_analysis)
          ⟨allocated.2, solved.1.2⟩
        let st' := { st with
          engine := solved.2
          heap := allocated.1
          optimization_cache := newCache }
        optimizeSteps3to6 req ext task_analysis st' allocated.2 solved.1.2 true

/-- `PromptOptimizer.optimize`: the `try`-block result, or on any exception the
single-component degraded fallback. -/
def PromptOptimizer.optimize (st : SysState) (req : OptimizationRequest)
    (ext : Externals) : OptimizedPromptRef × SysState × Bool :=
  match PromptOptimizer.optimizeTry st req ext with
  | (st', called, .ok result) => (result, st', called)
  | (st', called, .error _) =>
      let fallback_component : PromptComponent :=
        ⟨.instruction, "Please respond to the following query: " ++ req.user_prompt, 1⟩
      let allocated := allocComponent st'.heap fallback_component
      (⟨[allocated.2], fallback_component.content,
        "Fallback optimization due to error in processing.", 50⟩,
       { st' with heap := allocated.1 }, called)

/-- `PromptOptimizer.provide_feedback`: delegates to `update_efficacy`; the cache
clear sits *after* that call inside the `try`, so it only happens when the update
did not raise.  Returns false (instead of raising) on failure. -/
def PromptOptimizer.provide_feedback (st : SysState) (component_type : ComponentType)
    (task_or_behavior : TaskOrBehavior) (effectiveness : ℚ) (dbOk : Bool) :
    SysState × Bool :=
  match ASPEngine.update_efficacy st.engine st.engineDb component_type task_or_behavior
      effectiveness dbOk with
  | (eng', db', .ok ()) =>
      ({ st with engine := eng', engineDb := db', optimization_cache := [] }, true)
  | (eng', db', .error ()) =>
      ({ st with engine := eng', engineDb := db' }, false)

/-- One observable operation against the shared state. -/
inductive SysOp where
  | doOptimize (req : OptimizationRequest) (ext : Externals)
  | doFeedback (c : ComponentType) (tb : TaskOrBehavior) (v : ℚ) (dbOk : Bool)

/-- Apply one operation. -/
def SysState.step (st : SysState) : SysOp → SysState
  | .doOptimize req ext => (PromptOptimizer.optimize st req ext).2.1
  | .doFeedback c tb v dbOk => (PromptOptimizer.provide_feedback st c tb v dbOk).1

/-- Apply a sequence of operations. -/
def SysState.run (st : SysState) (ops : List SysOp) : SysState :=
  ops.foldl SysState.step st

/-- The process-start state: fresh engine over a given database table, empty heap,
empty module-global cache. -/
def initialSysState (db : List ComponentEfficacyRow) : SysState :=
  { engine := initialEngineState, engineDb := db, heap := [], optimization_cache := [] }

/-! ### The objective the SPEC describes (for comparison with the program)

The spec (§4.1) states the solver maximizes a weighted sum of component-by-task
efficacy, component-by-position effect and component-by-behavior efficacy, plus
additive model/domain adjustment overrides.  The following definitions follow the
spec's words over the engine's efficacy snapshot; they are *not* what the embedded
program computes, and the comparison is the subject of the C1 theorems. -/

/-- Component-by-task/behavior efficacy from the snapshot (0 when unconfigured). -/
def specEfficacy (eng : ASPEngineState) (c : ComponentType) (tb : TaskOrBehavior) : ℚ :=
  (alookup (c, tb) eng.component_efficacy).getD 0

/-- Component-by-position effect from the snapshot (0 when unconfigured). -/
def specPositionEffect (eng : ASPEngineState) (c : ComponentType) (p : Nat) : ℚ :=
  (alookup (c, p) eng.position_effects).getD 0

/-- Category weight from the snapshot (0 when unconfigured). -/
def specWeight (eng : ASPEngineState) (k : WeightKey) : ℚ :=
  (alookup k eng.weights).getD 0

/-- The adjustment entries that apply: the table row of the model/domain when it
is given and recognized, empty otherwise. -/
def specAdjustmentEntries (table : List (String × List ((ComponentType × BehaviorType) × ℚ)))
    (name : Option String) : List ((ComponentType × BehaviorType) × ℚ) :=
  match name with
  | none => []
  | some n => (alookup n table).getD []

/-- Additive override total from an adjustment table, when the model/domain is
given and recognized: the configured values whose behavior is requested. -/
def specAdjustmentTotal (table : List (String × List ((ComponentType × BehaviorType) × ℚ)))
    (name : Option String) (bs : List BehaviorType) : ℚ :=
  (((specAdjustmentEntries table name).filter fun e => bs.contains e.1.2).map Prod.snd).sum

/-- The spec's per-component term: task efficacies, position effect and behavior
efficacies, each multiplied by its category weight. -/
def specObjectiveTerm (eng : ASPEngineState) (ts : List TaskType) (bs : List BehaviorType)
    (a : AspAssign) (c : ComponentType) : ℚ :=
  (ts.map fun t => specEfficacy eng c (.task t) * specWeight eng (.task t)).sum
  + specPositionEffect eng c (posOf a c) * specWeight eng .position
  + (bs.map fun b => specEfficacy eng c (.behavior b) * specWeight eng (.behavior b)).sum

/-- The spec's objective for one assignment. -/
def specObjective (eng : ASPEngineState) (a : AspAssign) (ts : List TaskType)
    (bs : List BehaviorType) (m d : Option String) : ℚ :=
  (allComponents.map (specObjectiveTerm eng ts bs a)).sum
  + specAdjustmentTotal eng.model_adjustments m bs
  + specAdjustmentTotal eng.domain_adjustments d bs

/-- The maximum of the spec's objective over the feasible assignments. -/
def specMaxObjective (eng : ASPEngineState) (ts : List TaskType) (bs : List BehaviorType)
    (m d : Option String) : ℚ :=
  ((aspFeasibleAssignments.map fun a => specObjective eng a ts bs m d).foldr max 0)

/-- Kernel-evaluable twin of `specAdjustmentTotal`. -/
def specAdjustmentTotalE (table : List (String × List ((ComponentType × BehaviorType) × ℚ)))
    (name : Option String) (bs : List BehaviorType) : ℚ :=
  qSum (((specAdjustmentEntries table name).filter fun e => bs.contains e.1.2).map Prod.snd)

/-- Kernel-evaluable twin of `specObjectiveTerm`. -/
def specObjectiveTermE (eng : ASPEngineState) (ts : List TaskType) (bs : List BehaviorType)
    (a : AspAssign) (c : ComponentType) : ℚ :=
  qAdd (qAdd (qSum (ts.map fun t => qMul (specEfficacy eng c (.task t)) (specWeight eng (.task t))))
    (qMul (specPositionEffect eng c (posOf a c)) (specWeight eng .position)))
    (qSum (bs.map fun b => qMul (specEfficacy eng c (.behavior b)) (specWeight eng (.behavior b))))

/-- Kernel-evaluable twin of `specObjective`. -/
def specObjectiveE (eng : ASPEngineState) (a : AspAssign) (ts : List TaskType)
    (bs : List BehaviorType) (m d : Option String) : ℚ :=
  qAdd (qAdd (qSum (allComponents.map (specObjectiveTermE eng ts bs a)))
    (specAdjustmentTotalE eng.model_adjustments m bs))
    (specAdjustmentTotalE eng.domain_adjustments d bs)

/-- Kernel-evaluable twin of `specMaxObjective`. -/
def specMaxObjectiveE (eng : ASPEngineState) (ts : List TaskType) (bs : List BehaviorType)
    (m d : Option String) : ℚ :=
  ((aspFeasibleAssignments.map fun a => specObjectiveE eng a ts bs m d).foldr max 0)

theorem qSum_eq_sum (l : List ℚ) : qSum l = l.sum := by
  rw [qSum_eq, List.map_id]

theorem specAdjustmentTotalE_eq (table : List (String × List ((ComponentType × BehaviorType) × ℚ)))
    (name : Option String) (bs : List BehaviorType) :
    specAdjustmentTotalE table name bs = specAdjustmentTotal table name bs :=
  qSum_eq_sum _

theorem specObjectiveTermE_eq (eng : ASPEngineState) (ts : List TaskType)
    (bs : List BehaviorType) (a : AspAssign) (c : ComponentType) :
    specObjectiveTermE eng ts bs a c = specObjectiveTerm eng ts bs a c := by
  unfold specObjectiveTermE specObjectiveTerm
  simp only [qAdd_eq, qMul_eq, qSum_eq_sum]

theorem specObjectiveE_eq (eng : ASPEngineState) (a : AspAssign) (ts : List TaskType)
    (bs : List BehaviorType) (m d : Option String) :
    specObjectiveE eng a ts bs m d = specObjective eng a ts bs m d := by
  unfold specObjectiveE specObjective
  simp only [qAdd_eq, qSum_eq_sum, specAdjustmentTotalE_eq]
  congr 2
  exact congrArg List.sum (List.map_congr_left fun c _ => specObjectiveTermE_eq eng ts bs a c)

theorem specMaxObjectiveE_eq (eng : ASPEngineState) (ts : List TaskType)
    (bs : List BehaviorType) (m d : Option String) :
    specMaxObjectiveE eng ts bs m d = specMaxObjective eng ts bs m d := by
  unfold specMaxObjectiveE specMaxObjective
  congr 1
  exact List.map_congr_left fun a _ => specObjectiveE_eq eng a ts bs m d

/-! ### Facts for the C1 comparison -/

theorem foldr_max_le_of_forall_le (l : List ℚ) (c : ℚ) (h0 : 0 ≤ c)
    (h : ∀ x ∈ l, x ≤ c) : l.foldr max 0 ≤ c := by
  induction l with
  | nil => simpa using h0
  | cons x xs ih =>
    simp only [List.foldr_cons]
    exact max_le (h x (by simp)) (ih fun y hy => h y (by simp [hy]))

theorem specPositionEffect_le (c : ComponentType) (p : Nat) :
    specPositionEffect initialEngineState c p ≤ q 9 10 := by
  unfold specPositionEffect initialEngineState defaultPositionEffects
  simp only [alookup]
  split_ifs <;> simp [q, Rat.mkRat_eq_div] <;> norm_num

theorem specObjective_deduction_le (a : AspAssign) :
    specObjective initialEngineState a [.deduction] [] none none ≤ q 79 20 := by
  have eI : specEfficacy initialEngineState .instruction (.task .deduction) = q 8 10 := by decide
  have eC : specEfficacy initialEngineState .context (.task .deduction) = 0 := by decide
  have eE : specEfficacy initialEngineState .example_ (.task .deduction) = q 9 10 := by decide
  have eK : specEfficacy initialEngineState .constraint (.task .deduction) = 0 := by decide
  have eO : specEfficacy initialEngineState .output_format (.task .deduction) = 0 := by decide
  have wD : specWeight initialEngineState (.task .deduction) = 1 := by decide
  have wP : specWeight initialEngineState .position = q 5 10 := by decide
  have pI := specPositionEffect_le .instruction (posOf a .instruction)
  have pC := specPositionEffect_le .context (posOf a .context)
  have pE := specPositionEffect_le .example_ (posOf a .example_)
  have pK := specPositionEffect_le .constraint (posOf a .constraint)
  have pO := specPositionEffect_le .output_format (posOf a .output_format)
  unfold specObjective specObjectiveTerm specAdjustmentTotal specAdjustmentEntries
  simp only [allComponents, List.map_cons, List.map_nil, List.sum_cons, List.sum_nil,
    List.filter_nil, eI, eC, eE, eK, eO, wD, wP]
  simp only [q, Rat.mkRat_eq_div] at *
  norm_num
  linarith

theorem specMaxObjective_deduction_le :
    specMaxObjective initialEngineState [.deduction] [] none none ≤ q 79 20 := by
  unfold specMaxObjective
  refine foldr_max_le_of_forall_le _ _ (by simp [q, Rat.mkRat_eq_div]; norm_num) ?_
  intro x hx
  obtain ⟨a, _, rfl⟩ := List.mem_map.1 hx
  exact specObjective_deduction_le a

/-- C1 (counterexample): at the call
`solve([deduction], [], target_model=None, domain=None)` with the solver
succeeding, the returned effectiveness_score is 100.0, but the maximum over
feasible assignments of the spec's weighted sum is at most 3.95 — the returned
score is not that maximum. -/
theorem C1_solve_score_counterexample :
    (ASPEngine.solve initialEngineState [.deduction] [] none none .success).1.2 ≠
      specMaxObjective initialEngineState [.deduction] [] none none ∧
    (ASPEngine.solve initialEngineState [.deduction] [] none none .success).1.2 = 100 := by
  have hScore : (ASPEngine.solve initialEngineState [.deduction] [] none none .success).1.2
      = 100 := by
    show (aspEffectiveness aspBestAssignment : ℚ) = 100
    rw [aspBestAssignment_eq]
    decide
  refine ⟨?_, hScore⟩
  rw [hScore]
  intro h
  have hle := specMaxObjective_deduction_le
  rw [← h] at hle
  simp only [q, Rat.mkRat_eq_div] at hle
  norm_num at hle

/-- C1 (amended): whenever the underlying solver succeeds, the returned
effectiveness_score equals the maximum over feasible assignments of the ASP
program's own effectiveness value — a constant scheme (100/80/60/40) depending
only on whether the instruction is first and the example after it, with maximum
100 — independent of the requested tasks, behaviors, model and domain; the
weighted-sum efficacy facts are generated but never used in the objective. -/
theorem C1_solve_success_score_is_asp_max (st : ASPEngineState) (ts : List TaskType)
    (bs : List BehaviorType) (m d : Option String) :
    (ASPEngine.solve st ts bs m d .success).1.2 = (aspMaxEffectiveness : ℚ) ∧
    aspMaxEffectiveness = 100 := by
  refine ⟨?_, aspMaxEffectiveness_eq⟩
  show (aspEffectiveness aspBestAssignment : ℚ) = _
  rw [aspBestAssignment_eq, aspMaxEffectiveness_eq]
  decide

/-- C2: whenever the solving mechanism raises or yields no model, `solve` returns
exactly instruction=1, context=2, example=3, constraint=4, output_format=5 (with
their placeholder contents) and score 100.0, propagating nothing. -/
theorem C2_solve_failure_fixed_default (st : ASPEngineState) (ts : List TaskType)
    (bs : List BehaviorType) (m d : Option String) (outcome : SolverOutcome)
    (h : outcome = .raised ∨ outcome = .noModel) :
    (ASPEngine.solve st ts bs m d outcome).1 = (standardComponents, (100 : ℚ)) := by
  have hfb : _fallback_solve ts bs m d = (standardComponents, (100 : ℚ)) := rfl
  rcases h with h | h <;> subst h <;> exact hfb

/-- C2 witness: the fallback equality at a concrete failing call. -/
theorem C2_solve_failure_fixed_default_witness :
    (ASPEngine.solve initialEngineState [.deduction] [.precision] (some "gpt-4")
      (some "legal") .raised).1 = (standardComponents, (100 : ℚ)) :=
  C2_solve_failure_fixed_default initialEngineState [.deduction] [.precision]
    (some "gpt-4") (some "legal") .raised (.inl rfl)

/-- C5 (counterexample): a `provide_feedback` call whose underlying update fails
returns false but does *not* clear the result cache — the previously cached key
is still a hit afterwards, refuting "after any provide_feedback call, whether it
returns true or false, every previously cached optimization key is a miss". -/
theorem C5_feedback_no_clear_counterexample :
    (PromptOptimizer.provide_feedback
      { initialSysState [] with optimization_cache := [("k", ⟨[], 5⟩)] }
      .instruction (.task .deduction) 1 false).2 = false ∧
    alookup "k" (PromptOptimizer.provide_feedback
      { initialSysState [] with optimization_cache := [("k", ⟨[], 5⟩)] }
      .instruction (.task .deduction) 1 false).1.optimization_cache =
      some ⟨[], 5⟩ := by
  constructor <;> rfl

/-- C5 (amended): `provide_feedback` never raises and returns false exactly when
the underlying update fails; it clears the result cache exactly when the update
succeeded — on failure the cache is left untouched (the clear sits after the
update inside the `try`). -/
theorem C5_feedback_clear_iff_success (st : SysState) (c : ComponentType)
    (tb : TaskOrBehavior) (v : ℚ) (dbOk : Bool) :
    (PromptOptimizer.provide_feedback st c tb v dbOk).2 = dbOk ∧
    (PromptOptimizer.provide_feedback st c tb v dbOk).1.optimization_cache =
      (if dbOk then [] else st.optimization_cache) := by
  cases dbOk <;>
    simp [PromptOptimizer.provide_feedback, ASPEngine.update_efficacy]

/-! ### Lemmas for C7 (idempotence of `update_efficacy`) -/

theorem dbMatches_set_value (c : ComponentType) (tb : TaskOrBehavior) (v : ℚ)
    (row : ComponentEfficacyRow) :
    dbMatches c tb { row with efficacy_value := v } = dbMatches c tb row := by
  cases tb <;> rfl

theorem dbMatches_fresh (c : ComponentType) (tb : TaskOrBehavior) (v : ℚ) :
    dbMatches c tb (freshEfficacyRow c tb v) = true := by
  cases tb <;> simp [dbMatches, freshEfficacyRow]

theorem fresh_set_value (c : ComponentType) (tb : TaskOrBehavior) (v : ℚ) :
    { freshEfficacyRow c tb v with efficacy_value := v } = freshEfficacyRow c tb v := by
  cases tb <;> rfl

theorem dbUpsert_idem (c : ComponentType) (tb : TaskOrBehavior) (v : ℚ) :
    ∀ db, dbUpsert c tb v (dbUpsert c tb v db) = dbUpsert c tb v db
  | [] => by
    simp [dbUpsert, dbMatches_fresh, fresh_set_value]
  | row :: rest => by
    by_cases h : dbMatches c tb row = true
    · simp [dbUpsert, h, dbMatches_set_value]
    · simp only [dbUpsert, if_neg h]
      rw [dbUpsert_idem c tb v rest]

/-- C7: calling `update_efficacy` twice in succession with the same
(component, task-or-behavior, value) leaves the whole observable efficacy store —
the in-memory map, the cleared facts cache, and the database table — exactly as
one call does. -/
theorem C7_update_efficacy_idempotent (st : ASPEngineState)
    (db : List ComponentEfficacyRow) (component : ComponentType)
    (tb : TaskOrBehavior) (v : ℚ) :
    ASPEngine.update_efficacy (ASPEngine.update_efficacy st db component tb v true).1
      (ASPEngine.update_efficacy st db component tb v true).2.1 component tb v true =
    ASPEngine.update_efficacy st db component tb v true := by
  simp [ASPEngine.update_efficacy, aupsert_aupsert_self, dbUpsert_idem]

/-- C9: the cache key computed for an absent (None) domain coincides with the key
for the literal domain string "none", with the same tasks/behaviors/model — so
the two distinct requests address one and the same cache entry. -/
theorem C9_cache_key_none_collision (ts : List TaskType) (bs : List BehaviorType)
    (m : String) :
    _generate_cache_key ts bs m none = _generate_cache_key ts bs m (some "none") ∧
    ∀ cache : List (String × CacheEntry),
      alookup (_generate_cache_key ts bs m none) cache =
        alookup (_generate_cache_key ts bs m (some "none")) cache := by
  have h : _generate_cache_key ts bs m none = _generate_cache_key ts bs m (some "none") := by
    unfold _generate_cache_key
    have : pyOrStr none "none" = pyOrStr (some "none") "none" := by decide
    rw [this]
  exact ⟨h, fun cache => by rw [h]⟩

/-- C10: when the database write inside `update_efficacy` raises and
`provide_feedback` therefore returns false, the in-memory efficacy map already
holds the new value, the ASP facts cache is already cleared, and only the
database table is rolled back (unchanged). -/
theorem C10_feedback_failure_not_atomic (st : SysState) (c : ComponentType)
    (tb : TaskOrBehavior) (v : ℚ) :
    (PromptOptimizer.provide_feedback st c tb v false).2 = false ∧
    alookup (c, tb)
      (PromptOptimizer.provide_feedback st c tb v false).1.engine.component_efficacy =
      some v ∧
    (PromptOptimizer.provide_feedback st c tb v false).1.engine.factsCacheKeys = [] ∧
    (PromptOptimizer.provide_feedback st c tb v false).1.engineDb = st.engineDb := by
  refine ⟨rfl, ?_, rfl, rfl⟩
  exact alookup_aupsert_self _ _ _

/-! ### Heap and structure lemmas -/

/-- The structural part of a component object: its type and position. -/
def typePos (c : PromptComponent) : ComponentType × Nat := (c.type, c.position)

/-- The position assignment observable on a list of component addresses. -/
def structureOf (heap : List PromptComponent) (addrs : List Nat) :
    List (ComponentType × Nat) :=
  (readComps heap addrs).map typePos

theorem readComp_setContent_ne (heap : List PromptComponent) (a : Nat) (s : String)
    (i : Nat) (h : i ≠ a) : readComp (setContent heap a s) i = readComp heap i := by
  unfold readComp setContent
  rw [List.getD_eq_getElem?_getD, List.getD_eq_getElem?_getD,
    List.getElem?_set_ne (Ne.symm h)]

theorem typePos_readComp_setContent (heap : List PromptComponent) (a : Nat) (s : String)
    (i : Nat) : typePos (readComp (setContent heap a s) i) = typePos (readComp heap i) := by
  by_cases hia : i = a
  · subst hia
    by_cases hlt : i < heap.length
    · unfold readComp setContent
      rw [List.getD_eq_getElem?_getD, List.getD_eq_getElem?_getD,
        List.getElem?_set_self hlt]
      simp [typePos, readComp, List.getD_eq_getElem?_getD]
    · unfold setContent
      rw [List.set_eq_of_length_le (Nat.le_of_not_lt hlt)]
  · rw [readComp_setContent_ne heap a s i hia]

theorem setContent_length (heap : List PromptComponent) (a : Nat) (s : String) :
    (setContent heap a s).length = heap.length :=
  List.length_set heap a _

theorem readComps_setContent_of_ne (heap : List PromptComponent) (a : Nat) (s : String)
    (addrs : List Nat) (h : ∀ b ∈ addrs, b ≠ a) :
    readComps (setContent heap a s) addrs = readComps heap addrs :=
  List.map_congr_left fun b hb => readComp_setContent_ne heap a s b (h b hb)

theorem readComp_append_lt (heap l : List PromptComponent) (i : Nat)
    (h : i < heap.length) : readComp (heap ++ l) i = readComp heap i := by
  unfold readComp
  rw [List.getD_eq_getElem?_getD, List.getD_eq_getElem?_getD, List.getElem?_append_left h]

theorem readComps_append_of_bounded (heap l : List PromptComponent) (addrs : List Nat)
    (h : ∀ a ∈ addrs, a < heap.length) :
    readComps (heap ++ l) addrs = readComps heap addrs :=
  List.map_congr_left fun b hb => readComp_append_lt heap l b (h b hb)

theorem readComps_append_range' :
    ∀ (cs heap : List PromptComponent),
      readComps (heap ++ cs) (List.range' heap.length cs.length) = cs
  | [], heap => rfl
  | c :: cs, heap => by
    have hlen : (heap ++ [c]).length = heap.length + 1 := by simp
    have htail := readComps_append_range' cs (heap ++ [c])
    rw [hlen] at htail
    unfold readComps at htail ⊢
    rw [List.length_cons, List.range'_succ, List.map_cons]
    have hhead : readComp (heap ++ c :: cs) heap.length = c := by
      unfold readComp
      rw [List.getD_eq_getElem?_getD, List.getElem?_append_right (Nat.le_refl _)]
      simp
    rw [hhead]
    congr 1
    have hsplit : heap ++ c :: cs = heap ++ [c] ++ cs := by simp
    rw [hsplit]
    exact htail

/-- The fresh addresses returned by an allocation. -/
theorem allocComponents_snd (heap cs : List PromptComponent) :
    (allocComponents heap cs).2 = List.range' heap.length cs.length := rfl

theorem mem_range'_ge (s n m : Nat) (h : m ∈ List.range' s n) : s ≤ m := by
  obtain ⟨i, _, rfl⟩ := List.mem_range'.1 h
  exact Nat.le_add_right s _

/-! ### Content generation preserves length and structure -/

theorem generateContents_length (ext : Externals) (an : TaskAnalysis) (p : String) :
    ∀ (addrs : List Nat) (heap : List PromptComponent),
      (generateContents heap addrs ext an p).1.length = heap.length
  | [], heap => rfl
  | a :: rest, heap => by
    unfold generateContents
    cases ext.generate_component_content (readComp heap a).type an p with
    | error e => rfl
    | ok content =>
      rw [generateContents_length ext an p rest (setContent heap a content)]
      exact setContent_length heap a content

theorem typePos_generateContents (ext : Externals) (an : TaskAnalysis) (p : String) :
    ∀ (addrs : List Nat) (heap : List PromptComponent) (i : Nat),
      typePos (readComp (generateContents heap addrs ext an p).1 i) =
        typePos (readComp heap i)
  | [], heap, i => rfl
  | a :: rest, heap, i => by
    unfold generateContents
    cases ext.generate_component_content (readComp heap a).type an p with
    | error e => rfl
    | ok content =>
      rw [typePos_generateContents ext an p rest (setContent heap a content) i]
      exact typePos_readComp_setContent heap a content i

theorem structureOf_generateContents (ext : Externals) (an : TaskAnalysis) (p : String)
    (addrs : List Nat) (heap : List PromptComponent) (X : List Nat) :
    structureOf (generateContents heap addrs ext an p).1 X = structureOf heap X := by
  unfold structureOf readComps
  rw [List.map_map, List.map_map]
  exact List.map_congr_left fun b _ => typePos_generateContents ext an p addrs heap b

/-! ### Cache membership and boundedness -/

theorem alookup_mem {κ ν : Type} [DecidableEq κ] (k : κ) (v : ν) :
    ∀ l : List (κ × ν), alookup k l = some v → (k, v) ∈ l
  | [], h => by simp [alookup] at h
  | (k', v') :: rest, h => by
    by_cases hk : k' = k
    · subst hk
      unfold alookup at h
      rw [if_pos rfl] at h
      injection h with h
      subst h
      exact List.mem_cons_self _ _
    · unfold alookup at h
      rw [if_neg hk] at h
      exact List.mem_cons_of_mem _ (alookup_mem k v rest h)

/-- Every address stored in the cache points below the end of the heap. -/
def SysState.cacheAddrsBounded (st : SysState) : Bool :=
  st.optimization_cache.all fun ke => ke.2.componentAddrs.all fun a =>
    decide (a < st.heap.length)

theorem cacheAddrsBounded_lookup (st : SysState)
    (h : st.cacheAddrsBounded = true) (k : String) (e : CacheEntry)
    (hl : alookup k st.optimization_cache = some e) :
    ∀ a ∈ e.componentAddrs, a < st.heap.length := by
  intro a ha
  have hmem := alookup_mem k e st.optimization_cache hl
  have := (List.all_eq_true.1 h) (k, e) hmem
  have := (List.all_eq_true.1 this) a ha
  exact of_decide_eq_true this

/-! ### Behaviour of steps 3–6 and the two resolution paths -/

theorem optimizeSteps3to6_spec (req : OptimizationRequest) (ext : Externals)
    (an : TaskAnalysis) (st1 : SysState) (addrs : List Nat) (score : ℚ) (called : Bool) :
    (optimizeSteps3to6 req ext an st1 addrs score called).2.1 = called ∧
    (optimizeSteps3to6 req ext an st1 addrs score called).1.optimization_cache =
      st1.optimization_cache ∧
    (optimizeSteps3to6 req ext an st1 addrs score called).1.heap.length =
      st1.heap.length ∧
    (∀ X, structureOf (optimizeSteps3to6 req ext an st1 addrs score called).1.heap X =
      structureOf st1.heap X) ∧
    (∀ r, (optimizeSteps3to6 req ext an st1 addrs score called).2.2 = .ok r →
      r.componentAddrs = addrs ∧ r.effectiveness_score = score) := by
  unfold optimizeSteps3to6
  rcases hg : generateContents st1.heap addrs ext an req.user_prompt with ⟨heap2, gr⟩
  have hlen : heap2.length = st1.heap.length := by
    have h := generateContents_length ext an req.user_prompt addrs st1.heap
    rw [hg] at h
    exact h
  have hstruct : ∀ X, structureOf heap2 X = structureOf st1.heap X := by
    intro X
    have h := structureOf_generateContents ext an req.user_prompt addrs st1.heap X
    rw [hg] at h
    exact h
  cases gr with
  | error e => exact ⟨rfl, rfl, hlen, hstruct, fun r hr => by cases hr⟩
  | ok u =>
    cases u
    dsimp only
    cases hAs : ext.assemble_prompt (readComps heap2 addrs) with
    | error e => exact ⟨rfl, rfl, hlen, hstruct, fun r hr => by cases hr⟩
    | ok full_prompt =>
      cases hR : ext.generate_rationale (readComps heap2 addrs) an score with
      | error e => exact ⟨rfl, rfl, hlen, hstruct, fun r hr => by cases hr⟩
      | ok rationale =>
        refine ⟨rfl, rfl, hlen, hstruct, fun r hr => ?_⟩
        injection hr with hr
        subst hr
        exact ⟨rfl, rfl⟩

theorem optimizeTry_analyze_error (st : SysState) (req : OptimizationRequest)
    (ext : Externals) (e : Unit) (hA : ext.analyze_task req.user_prompt = .error e) :
    PromptOptimizer.optimizeTry st req ext = (st, false, .error e) := by
  unfold PromptOptimizer.optimizeTry
  rw [hA]

theorem optimizeTry_hit (st : SysState) (req : OptimizationRequest) (ext : Externals)
    (an : TaskAnalysis) (entry : CacheEntry)
    (hA : ext.analyze_task req.user_prompt = .ok an)
    (hL : alookup (cacheKeyOf req an) st.optimization_cache = some entry) :
    PromptOptimizer.optimizeTry st req ext =
      optimizeSteps3to6 req ext an
        { st with heap := st.heap ++ readComps st.heap entry.componentAddrs }
        (List.range' st.heap.length (readComps st.heap entry.componentAddrs).length)
        entry.effectiveness_score false := by
  unfold PromptOptimizer.optimizeTry
  rw [hA]
  dsimp only
  rw [hL]
  rfl

/-- The solve call made on a cache miss. -/
def missSolved (st : SysState) (req : OptimizationRequest) (an : TaskAnalysis)
    (ext : Externals) : (List PromptComponent × ℚ) × ASPEngineState :=
  ASPEngine.solve st.engine (resolvedTasks req an) (resolvedBehaviors req an)
    (some req.target_model) (resolvedDomain req an) ext.solverOutcome

theorem optimizeTry_miss (st : SysState) (req : OptimizationRequest) (ext : Externals)
    (an : TaskAnalysis)
    (hA : ext.analyze_task req.user_prompt = .ok an)
    (hL : alookup (cacheKeyOf req an) st.optimization_cache = none) :
    PromptOptimizer.optimizeTry st req ext =
      optimizeSteps3to6 req ext an
        { st with
          engine := (missSolved st req an ext).2
          heap := st.heap ++ (missSolved st req an ext).1.1
          optimization_cache := cachePut st.optimization_cache (cacheKeyOf req an)
            ⟨List.range' st.heap.length (missSolved st req an ext).1.1.length,
             (missSolved st req an ext).1.2⟩ }
        (List.range' st.heap.length (missSolved st req an ext).1.1.length)
        ((missSolved st req an ext).1.2) true := by
  unfold PromptOptimizer.optimizeTry missSolved
  rw [hA]
  dsimp only
  rw [hL]
  rfl

theorem optimize_eq_of_try_ok (st : SysState) (req : OptimizationRequest)
    (ext : Externals) (st4 : SysState) (c : Bool) (res : OptimizedPromptRef)
    (h : PromptOptimizer.optimizeTry st req ext = (st4, c, .ok res)) :
    PromptOptimizer.optimize st req ext = (res, st4, c) := by
  unfold PromptOptimizer.optimize
  rw [h]

theorem optimize_eq_of_try_error (st : SysState) (req : OptimizationRequest)
    (ext : Externals) (st4 : SysState) (c : Bool) (e : Unit)
    (h : PromptOptimizer.optimizeTry st req ext = (st4, c, .error e)) :
    PromptOptimizer.optimize st req ext =
      (⟨[st4.heap.length], "Please respond to the following query: " ++ req.user_prompt,
        "Fallback optimization due to error in processing.", 50⟩,
       { st4 with heap := st4.heap ++
          [⟨.instruction, "Please respond to the following query: " ++ req.user_prompt, 1⟩] },
       c) := by
  unfold PromptOptimizer.optimize allocComponent
  rw [h]

/-! ### The result cache stays within its capacity -/

theorem optimizeTry_cache_cases (st : SysState) (req : OptimizationRequest)
    (ext : Externals) :
    (PromptOptimizer.optimizeTry st req ext).1.optimization_cache =
      st.optimization_cache ∨
    ∃ k e, (PromptOptimizer.optimizeTry st req ext).1.optimization_cache =
      cachePut st.optimization_cache k e := by
  cases hA : ext.analyze_task req.user_prompt with
  | error e =>
    rw [optimizeTry_analyze_error st req ext e hA]
    exact .inl rfl
  | ok an =>
    cases hL : alookup (cacheKeyOf req an) st.optimization_cache with
    | some entry =>
      rw [optimizeTry_hit st req ext an entry hA hL]
      exact .inl (optimizeSteps3to6_spec req ext an _ _ _ _).2.1
    | none =>
      rw [optimizeTry_miss st req ext an hA hL]
      exact .inr ⟨_, _, (optimizeSteps3to6_spec req ext an _ _ _ _).2.1⟩

theorem optimize_cache_eq_try (st : SysState) (req : OptimizationRequest)
    (ext : Externals) :
    (PromptOptimizer.optimize st req ext).2.1.optimization_cache =
      (PromptOptimizer.optimizeTry st req ext).1.optimization_cache := by
  rcases h : PromptOptimizer.optimizeTry st req ext with ⟨st4, c, r⟩
  cases r with
  | ok res => rw [optimize_eq_of_try_ok st req ext st4 c res h]
  | error e => rw [optimize_eq_of_try_error st req ext st4 c e h]

theorem cachePut_length_le (cache : List (String × CacheEntry)) (k : String)
    (e : CacheEntry) (h : cache.length ≤ OPTIMIZATION_CACHE_SIZE) :
    (cachePut cache k e).length ≤ OPTIMIZATION_CACHE_SIZE := by
  unfold cachePut OPTIMIZATION_CACHE_SIZE at *
  by_cases h32 : 32 ≤ cache.length
  · rw [if_pos h32]
    simp only [List.length_append, List.length_drop, List.length_cons, List.length_nil]
    omega
  · rw [if_neg h32]
    simp only [List.length_append, List.length_cons, List.length_nil]
    omega

/-- C8: starting from the empty cache, no interleaving of optimize and
provide_feedback operations ever leaves more than OPTIMIZATION_CACHE_SIZE = 32
entries in the result cache: every insertion into a full cache first evicts an
entry. -/
theorem C8_cache_never_exceeds_capacity (db : List ComponentEfficacyRow)
    (ops : List SysOp) :
    ((initialSysState db).run ops).optimization_cache.length ≤
      OPTIMIZATION_CACHE_SIZE := by
  suffices h : ∀ (ops : List SysOp) (st : SysState),
      st.optimization_cache.length ≤ OPTIMIZATION_CACHE_SIZE →
      (st.run ops).optimization_cache.length ≤ OPTIMIZATION_CACHE_SIZE from
    h ops _ (by simp [initialSysState, OPTIMIZATION_CACHE_SIZE])
  intro ops
  induction ops with
  | nil => exact fun st h => h
  | cons op rest ih =>
    intro st h
    have hstep : (st.step op).optimization_cache.length ≤ OPTIMIZATION_CACHE_SIZE := by
      cases op with
      | doOptimize req ext =>
        show (PromptOptimizer.optimize st req ext).2.1.optimization_cache.length ≤ _
        rw [optimize_cache_eq_try]
        rcases optimizeTry_cache_cases st req ext with hc | ⟨k, e, hc⟩
        · rw [hc]; exact h
        · rw [hc]; exact cachePut_length_le _ k e h
      | doFeedback c tb v dbOk =>
        cases dbOk with
        | false => exact h
        | true => exact Nat.zero_le _
    show (SysState.run st (op :: rest)).optimization_cache.length ≤ _
    rw [SysState.run, List.foldl_cons]
    exact ih (st.step op) hstep

/-! ### Concrete externals used in witnesses and counterexamples -/

/-- The analysis the meta-LLM mock returns for any prompt. -/
def mockAnalysis : TaskAnalysis :=
  { detected_tasks := [.deduction]
    detected_behaviors := [.precision, .step_by_step]
    domain_hint := none }

/-- Externals whose analyzer and generators all succeed; the clingo interaction
raises (which `solve` absorbs into its internal hardcoded fallback — `optimize`
is oblivious to the difference). -/
def benignExternals : Externals :=
  { analyze_task := fun _ => .ok mockAnalysis
    solverOutcome := .raised
    generate_component_content := fun c _ _ => .ok ("generated " ++ c.value)
    assemble_prompt := fun _ => .ok "assembled"
    generate_rationale := fun _ _ _ => .ok "rationale" }

/-- Externals whose analyzer raises. -/
def failAnalyzeExternals : Externals :=
  { benignExternals with analyze_task := fun _ => .error () }

/-! ### C3: the degraded fallback result of `optimize` -/

/-- C3 (amended): whenever any of the analyze, structure-resolution,
content-generation, assembly or rationale steps raises, `optimize` returns
(never raises) the degraded result: exactly one component, of type instruction at
position 1, whose content is "Please respond to the following query: {original
user prompt}", full_prompt equal to that content, the literal rationale
"Fallback optimization due to error in processing." (which contains "Fallback"),
and effectiveness_score exactly 50.0. -/
theorem C3_optimize_error_degraded (st : SysState) (req : OptimizationRequest)
    (ext : Externals) (e : Unit) (st4 : SysState) (c : Bool)
    (h : PromptOptimizer.optimizeTry st req ext = (st4, c, .error e)) :
    (PromptOptimizer.optimize st req ext).1.componentAddrs.length = 1 ∧
    readComps (PromptOptimizer.optimize st req ext).2.1.heap
        (PromptOptimizer.optimize st req ext).1.componentAddrs =
      [⟨.instruction, "Please respond to the following query: " ++ req.user_prompt, 1⟩] ∧
    (PromptOptimizer.optimize st req ext).1.full_prompt =
      "Please respond to the following query: " ++ req.user_prompt ∧
    (PromptOptimizer.optimize st req ext).1.rationale =
      "Fallback optimization due to error in processing." ∧
    (∃ pre post, (PromptOptimizer.optimize st req ext).1.rationale =
      pre ++ "Fallback" ++ post) ∧
    (PromptOptimizer.optimize st req ext).1.effectiveness_score = 50 := by
  rw [optimize_eq_of_try_error st req ext st4 c e h]
  refine ⟨rfl, ?_, rfl, rfl, ⟨"", " optimization due to error in processing.", rfl⟩, rfl⟩
  show List.map _ [st4.heap.length] = _
  rw [List.map_cons, List.map_nil]
  unfold readComp
  rw [List.getD_eq_getElem?_getD, List.getElem?_concat_length]
  rfl

/-- C3 witness: the degraded result at a concrete failing analyzer call. -/
theorem C3_optimize_error_degraded_witness :
    (PromptOptimizer.optimize (initialSysState []) ⟨"hi", [], [], "gpt-4", none⟩
      failAnalyzeExternals).1.componentAddrs.length = 1 ∧
    readComps (PromptOptimizer.optimize (initialSysState []) ⟨"hi", [], [], "gpt-4", none⟩
        failAnalyzeExternals).2.1.heap
        (PromptOptimizer.optimize (initialSysState []) ⟨"hi", [], [], "gpt-4", none⟩
          failAnalyzeExternals).1.componentAddrs =
      [⟨.instruction, "Please respond to the following query: " ++ "hi", 1⟩] ∧
    (PromptOptimizer.optimize (initialSysState []) ⟨"hi", [], [], "gpt-4", none⟩
        failAnalyzeExternals).1.full_prompt =
      "Please respond to the following query: " ++ "hi" ∧
    (PromptOptimizer.optimize (initialSysState []) ⟨"hi", [], [], "gpt-4", none⟩
        failAnalyzeExternals).1.rationale =
      "Fallback optimization due to error in processing." ∧
    (∃ pre post, (PromptOptimizer.optimize (initialSysState []) ⟨"hi", [], [], "gpt-4", none⟩
        failAnalyzeExternals).1.rationale = pre ++ "Fallback" ++ post) ∧
    (PromptOptimizer.optimize (initialSysState []) ⟨"hi", [], [], "gpt-4", none⟩
        failAnalyzeExternals).1.effectiveness_score = 50 :=
  C3_optimize_error_degraded (initialSysState []) ⟨"hi", [], [], "gpt-4", none⟩
    failAnalyzeExternals () (initialSysState []) false rfl

/-- C3 (counterexample): at the failing-analyzer call on prompt "hi" the degraded
component's content (and full_prompt) is "Please respond to the following query:
hi" — not "please respond to: hi" as the claim words it. -/
theorem C3_fallback_content_counterexample :
    readComps (PromptOptimizer.optimize (initialSysState []) ⟨"hi", [], [], "gpt-4", none⟩
        failAnalyzeExternals).2.1.heap
        (PromptOptimizer.optimize (initialSysState []) ⟨"hi", [], [], "gpt-4", none⟩
          failAnalyzeExternals).1.componentAddrs =
      [⟨.instruction, "Please respond to the following query: hi", 1⟩] ∧
    (PromptOptimizer.optimize (initialSysState []) ⟨"hi", [], [], "gpt-4", none⟩
        failAnalyzeExternals).1.full_prompt ≠ "please respond to: hi" := by
  constructor
  · decide
  · decide

/-! ### C4: decoupling of returned components from the cache -/

theorem optimizeTry_heap_length_ge (st : SysState) (req : OptimizationRequest)
    (ext : Externals) :
    st.heap.length ≤ (PromptOptimizer.optimizeTry st req ext).1.heap.length := by
  cases hA : ext.analyze_task req.user_prompt with
  | error e =>
    rw [optimizeTry_analyze_error st req ext e hA]
  | ok an =>
    cases hL : alookup (cacheKeyOf req an) st.optimization_cache with
    | some entry =>
      rw [optimizeTry_hit st req ext an entry hA hL,
        (optimizeSteps3to6_spec req ext an _ _ _ _).2.2.1]
      simp
    | none =>
      rw [optimizeTry_miss st req ext an hA hL,
        (optimizeSteps3to6_spec req ext an _ _ _ _).2.2.1]
      simp

theorem optimize_hit_cache_eq (st : SysState) (req : OptimizationRequest)
    (ext : Externals) (an : TaskAnalysis) (entry : CacheEntry)
    (hA : ext.analyze_task req.user_prompt = .ok an)
    (hL : alookup (cacheKeyOf req an) st.optimization_cache = some entry) :
    (PromptOptimizer.optimize st req ext).2.1.optimization_cache =
      st.optimization_cache := by
  rw [optimize_cache_eq_try, optimizeTry_hit st req ext an entry hA hL]
  exact (optimizeSteps3to6_spec req ext an _ _ _ _).2.1

theorem optimize_hit_addrs_ge (st : SysState) (req : OptimizationRequest)
    (ext : Externals) (an : TaskAnalysis) (entry : CacheEntry)
    (hA : ext.analyze_task req.user_prompt = .ok an)
    (hL : alookup (cacheKeyOf req an) st.optimization_cache = some entry) :
    ∀ a ∈ (PromptOptimizer.optimize st req ext).1.componentAddrs,
      st.heap.length ≤ a := by
  have hTry := optimizeTry_hit st req ext an entry hA hL
  rcases hT : PromptOptimizer.optimizeTry st req ext with ⟨st4, c, r⟩
  have hSteps :
      optimizeSteps3to6 req ext an
        { st with heap := st.heap ++ readComps st.heap entry.componentAddrs }
        (List.range' st.heap.length (readComps st.heap entry.componentAddrs).length)
        entry.effectiveness_score false = (st4, c, r) := hTry.symm.trans hT
  cases r with
  | ok res =>
    rw [optimize_eq_of_try_ok st req ext st4 c res hT]
    have hres := (optimizeSteps3to6_spec req ext an
      { st with heap := st.heap ++ readComps st.heap entry.componentAddrs }
      (List.range' st.heap.length (readComps st.heap entry.componentAddrs).length)
      entry.effectiveness_score false).2.2.2.2 res (by rw [hSteps])
    intro a ha
    rw [hres.1] at ha
    exact mem_range'_ge _ _ _ ha
  | error e =>
    rw [optimize_eq_of_try_error st req ext st4 c e hT]
    intro a ha
    have haeq : a = st4.heap.length := by simpa using ha
    subst haeq
    have hlen := optimizeTry_heap_length_ge st req ext
    rw [hT] at hlen
    exact hlen

/-- C4 (amended): on a cache *hit* the returned components are fresh deep copies,
so mutating any returned component's content leaves every component list stored
in the cache unchanged.  (On the populating miss this fails: the stored list is
the returned list itself — see the counterexample.) -/
theorem C4_hit_mutation_decoupled (st : SysState) (req : OptimizationRequest)
    (ext : Externals) (an : TaskAnalysis) (entry : CacheEntry) (a : Nat) (s : String)
    (k : String) (e : CacheEntry)
    (hWF : st.cacheAddrsBounded = true)
    (hA : ext.analyze_task req.user_prompt = .ok an)
    (hL : alookup (cacheKeyOf req an) st.optimization_cache = some entry)
    (ha : a ∈ (PromptOptimizer.optimize st req ext).1.componentAddrs)
    (he : alookup k (PromptOptimizer.optimize st req ext).2.1.optimization_cache =
      some e) :
    readComps (setContent (PromptOptimizer.optimize st req ext).2.1.heap a s)
        e.componentAddrs =
      readComps (PromptOptimizer.optimize st req ext).2.1.heap e.componentAddrs := by
  have hcache := optimize_hit_cache_eq st req ext an entry hA hL
  rw [hcache] at he
  have hbound := cacheAddrsBounded_lookup st hWF k e he
  have hge := optimize_hit_addrs_ge st req ext an entry hA hL a ha
  exact readComps_setContent_of_ne _ a s _
    (fun b hb => Nat.ne_of_lt (lt_of_lt_of_le (hbound b hb) hge))

/-- C4 witness: a concrete cache hit whose returned copy is mutated without
affecting the stored entry. -/
theorem C4_hit_mutation_decoupled_witness :
    readComps
        (setContent (PromptOptimizer.optimize
          { initialSysState [] with
            heap := standardComponents
            optimization_cache := [("deduction|precision|gpt-4|none", ⟨[0, 1, 2, 3, 4], 100⟩)] }
          ⟨"hi", [.deduction], [.precision], "gpt-4", none⟩ benignExternals).2.1.heap
          5 "MUTATED")
        (CacheEntry.componentAddrs ⟨[0, 1, 2, 3, 4], 100⟩) =
      readComps (PromptOptimizer.optimize
          { initialSysState [] with
            heap := standardComponents
            optimization_cache := [("deduction|precision|gpt-4|none", ⟨[0, 1, 2, 3, 4], 100⟩)] }
          ⟨"hi", [.deduction], [.precision], "gpt-4", none⟩ benignExternals).2.1.heap
        (CacheEntry.componentAddrs ⟨[0, 1, 2, 3, 4], 100⟩) :=
  C4_hit_mutation_decoupled
    { initialSysState [] with
      heap := standardComponents
      optimization_cache := [("deduction|precision|gpt-4|none", ⟨[0, 1, 2, 3, 4], 100⟩)] }
    ⟨"hi", [.deduction], [.precision], "gpt-4", none⟩ benignExternals mockAnalysis
    ⟨[0, 1, 2, 3, 4], 100⟩ 5 "MUTATED" "deduction|precision|gpt-4|none"
    ⟨[0, 1, 2, 3, 4], 100⟩ (by decide) rfl (by decide) (by decide) (by decide)

/-- C4 (counterexample): on the original populating miss, the component list
stored in the cache is the very list handed back to the caller; mutating the
first returned component's content changes the cached components, refuting the
claim for the miss case. -/
theorem C4_miss_alias_counterexample :
    (PromptOptimizer.optimize (initialSysState [])
      ⟨"hi", [.deduction], [.precision], "gpt-4", none⟩ benignExternals).2.2 = true ∧
    readComps
        (setContent (PromptOptimizer.optimize (initialSysState [])
            ⟨"hi", [.deduction], [.precision], "gpt-4", none⟩ benignExternals).2.1.heap
          ((PromptOptimizer.optimize (initialSysState [])
            ⟨"hi", [.deduction], [.precision], "gpt-4", none⟩
            benignExternals).1.componentAddrs.headD 0) "MUTATED")
        (((PromptOptimizer.optimize (initialSysState [])
            ⟨"hi", [.deduction], [.precision], "gpt-4", none⟩
            benignExternals).2.1.optimization_cache.headD
          ("", ⟨[], 0⟩)).2.componentAddrs) ≠
      readComps (PromptOptimizer.optimize (initialSysState [])
          ⟨"hi", [.deduction], [.precision], "gpt-4", none⟩ benignExternals).2.1.heap
        (((PromptOptimizer.optimize (initialSysState [])
            ⟨"hi", [.deduction], [.precision], "gpt-4", none⟩
            benignExternals).2.1.optimization_cache.headD
          ("", ⟨[], 0⟩)).2.componentAddrs) := by
  constructor
  · decide
  · decide

/-! ### C6: structurally identical results from permuted target lists -/

/-- The structural observation of a `try`-result: on success, the (type, position)
pairs of the returned component objects, read from the final heap. -/
def tryResultStructure (t : SysState × Bool × Except Unit OptimizedPromptRef) :
    Option (List (ComponentType × Nat)) :=
  t.2.2.toOption.map fun r => structureOf t.1.heap r.componentAddrs

/-- The score of a `try`-result. -/
def tryResultScore (t : SysState × Bool × Except Unit OptimizedPromptRef) : Option ℚ :=
  t.2.2.toOption.map OptimizedPromptRef.effectiveness_score

theorem cacheKeyOf_eq_of_perm (req1 req2 : OptimizationRequest)
    (an1 an2 : TaskAnalysis)
    (hPT : ((resolvedTasks req1 an1).map TaskType.value).Perm
      ((resolvedTasks req2 an2).map TaskType.value))
    (hPB : ((resolvedBehaviors req1 an1).map BehaviorType.value).Perm
      ((resolvedBehaviors req2 an2).map BehaviorType.value))
    (hM : req2.target_model = req1.target_model)
    (hD : resolvedDomain req2 an2 = resolvedDomain req1 an1) :
    cacheKeyOf req2 an2 = cacheKeyOf req1 an1 := by
  unfold cacheKeyOf _generate_cache_key
  rw [pySorted_perm_eq hPT.symm, pySorted_perm_eq hPB.symm, hM, hD]

theorem alookup_cachePut_self (cache : List (String × CacheEntry)) (k : String)
    (e : CacheEntry) (h : alookup k cache = none) :
    alookup k (cachePut cache k e) = some e := by
  unfold cachePut
  by_cases h32 : OPTIMIZATION_CACHE_SIZE ≤ cache.length
  · rw [if_pos h32]
    exact alookup_append_single k e _ (alookup_none_drop_one k cache h)
  · rw [if_neg h32]
    exact alookup_append_single k e _ h

/-- C6: two consecutive optimize calls whose resolved task lists and behavior
lists contain the same names (in any order) and whose target model and resolved
domain agree map to the same cache key; when both calls return successfully, the
second is served from the cache — no solver invocation — with a structurally
identical position assignment and the same effectiveness score. -/
theorem C6_second_call_served_from_cache (st : SysState)
    (req1 req2 : OptimizationRequest) (ext1 ext2 : Externals)
    (an1 an2 : TaskAnalysis)
    (hWF : st.cacheAddrsBounded = true)
    (hA1 : ext1.analyze_task req1.user_prompt = .ok an1)
    (hA2 : ext2.analyze_task req2.user_prompt = .ok an2)
    (hPT : ((resolvedTasks req1 an1).map TaskType.value).Perm
      ((resolvedTasks req2 an2).map TaskType.value))
    (hPB : ((resolvedBehaviors req1 an1).map BehaviorType.value).Perm
      ((resolvedBehaviors req2 an2).map BehaviorType.value))
    (hM : req2.target_model = req1.target_model)
    (hD : resolvedDomain req2 an2 = resolvedDomain req1 an1)
    (hOk1 : (PromptOptimizer.optimizeTry st req1 ext1).2.2.isOk = true)
    (hOk2 : (PromptOptimizer.optimizeTry
      (PromptOptimizer.optimizeTry st req1 ext1).1 req2 ext2).2.2.isOk = true) :
    (PromptOptimizer.optimizeTry
      (PromptOptimizer.optimizeTry st req1 ext1).1 req2 ext2).2.1 = false ∧
    tryResultStructure (PromptOptimizer.optimizeTry
      (PromptOptimizer.optimizeTry st req1 ext1).1 req2 ext2) =
      tryResultStructure (PromptOptimizer.optimizeTry st req1 ext1) ∧
    tryResultScore (PromptOptimizer.optimizeTry
      (PromptOptimizer.optimizeTry st req1 ext1).1 req2 ext2) =
      tryResultScore (PromptOptimizer.optimizeTry st req1 ext1) := by
  have hKey := cacheKeyOf_eq_of_perm req1 req2 an1 an2 hPT hPB hM hD
  rcases hE1 : (PromptOptimizer.optimizeTry st req1 ext1).2.2 with e1 | res1
  · rw [hE1] at hOk1
    cases hOk1
  cases hL1 : alookup (cacheKeyOf req1 an1) st.optimization_cache with
  | some entry =>
    have hTry1 := optimizeTry_hit st req1 ext1 an1 entry hA1 hL1
    have spec1 := optimizeSteps3to6_spec req1 ext1 an1
      { st with heap := st.heap ++ readComps st.heap entry.componentAddrs }
      (List.range' st.heap.length (readComps st.heap entry.componentAddrs).length)
      entry.effectiveness_score false
    rw [← hTry1] at spec1
    have hres1 := spec1.2.2.2.2 res1 hE1
    have hcache1 : (PromptOptimizer.optimizeTry st req1 ext1).1.optimization_cache =
        st.optimization_cache := spec1.2.1
    have hL2 : alookup (cacheKeyOf req2 an2)
        (PromptOptimizer.optimizeTry st req1 ext1).1.optimization_cache = some entry := by
      rw [hKey, hcache1]
      exact hL1
    have hTry2 := optimizeTry_hit (PromptOptimizer.optimizeTry st req1 ext1).1 req2 ext2
      an2 entry hA2 hL2
    have spec2 := optimizeSteps3to6_spec req2 ext2 an2
      { (PromptOptimizer.optimizeTry st req1 ext1).1 with
        heap := (PromptOptimizer.optimizeTry st req1 ext1).1.heap ++
          readComps (PromptOptimizer.optimizeTry st req1 ext1).1.heap entry.componentAddrs }
      (List.range' (PromptOptimizer.optimizeTry st req1 ext1).1.heap.length
        (readComps (PromptOptimizer.optimizeTry st req1 ext1).1.heap
          entry.componentAddrs).length)
      entry.effectiveness_score false
    rw [← hTry2] at spec2
    rcases hE2 : (PromptOptimizer.optimizeTry
        (PromptOptimizer.optimizeTry st req1 ext1).1 req2 ext2).2.2 with e2 | res2
    · rw [hE2] at hOk2
      cases hOk2
    have hres2 := spec2.2.2.2.2 res2 hE2
    have hboundEntry := cacheAddrsBounded_lookup st hWF _ entry hL1
    have hs2 : structureOf (PromptOptimizer.optimizeTry
        (PromptOptimizer.optimizeTry st req1 ext1).1 req2 ext2).1.heap
          res2.componentAddrs =
        structureOf (PromptOptimizer.optimizeTry st req1 ext1).1.heap
          res1.componentAddrs := by
      rw [hres2.1, hres1.1, spec2.2.2.2.1, spec1.2.2.2.1]
      unfold structureOf
      rw [readComps_append_range', readComps_append_range']
      have hX := spec1.2.2.2.1 entry.componentAddrs
      unfold structureOf at hX
      rw [hX]
      dsimp only
      rw [readComps_append_of_bounded st.heap _ entry.componentAddrs hboundEntry]
    refine ⟨spec2.1, ?_, ?_⟩
    · unfold tryResultStructure
      rw [hE1, hE2]
      exact congrArg some hs2
    · unfold tryResultScore
      rw [hE1, hE2]
      exact congrArg some (hres2.2.trans hres1.2.symm)
  | none =>
    have hTry1 := optimizeTry_miss st req1 ext1 an1 hA1 hL1
    have spec1 := optimizeSteps3to6_spec req1 ext1 an1
      { st with
        engine := (missSolved st req1 an1 ext1).2
        heap := st.heap ++ (missSolved st req1 an1 ext1).1.1
        optimization_cache := cachePut st.optimization_cache (cacheKeyOf req1 an1)
          ⟨List.range' st.heap.length (missSolved st req1 an1 ext1).1.1.length,
           (missSolved st req1 an1 ext1).1.2⟩ }
      (List.range' st.heap.length (missSolved st req1 an1 ext1).1.1.length)
      ((missSolved st req1 an1 ext1).1.2) true
    rw [← hTry1] at spec1
    have hres1 := spec1.2.2.2.2 res1 hE1
    have hcache1 : (PromptOptimizer.optimizeTry st req1 ext1).1.optimization_cache =
        cachePut st.optimization_cache (cacheKeyOf req1 an1)
          ⟨List.range' st.heap.length (missSolved st req1 an1 ext1).1.1.length,
           (missSolved st req1 an1 ext1).1.2⟩ := spec1.2.1
    have hL2 : alookup (cacheKeyOf req2 an2)
        (PromptOptimizer.optimizeTry st req1 ext1).1.optimization_cache =
        some ⟨List.range' st.heap.length (missSolved st req1 an1 ext1).1.1.length,
          (missSolved st req1 an1 ext1).1.2⟩ := by
      rw [hKey, hcache1]
      exact alookup_cachePut_self _ _ _ hL1
    have hTry2 := optimizeTry_hit (PromptOptimizer.optimizeTry st req1 ext1).1 req2 ext2
      an2 ⟨List.range' st.heap.length (missSolved st req1 an1 ext1).1.1.length,
        (missSolved st req1 an1 ext1).1.2⟩ hA2 hL2
    have spec2 := optimizeSteps3to6_spec req2 ext2 an2
      { (PromptOptimizer.optimizeTry st req1 ext1).1 with
        heap := (PromptOptimizer.optimizeTry st req1 ext1).1.heap ++
          readComps (PromptOptimizer.optimizeTry st req1 ext1).1.heap
            (List.range' st.heap.length (missSolved st req1 an1 ext1).1.1.length) }
      (List.range' (PromptOptimizer.optimizeTry st req1 ext1).1.heap.length
        (readComps (PromptOptimizer.optimizeTry st req1 ext1).1.heap
          (List.range' st.heap.length (missSolved st req1 an1 ext1).1.1.length)).length)
      ((missSolved st req1 an1 ext1).1.2) false
    rw [← hTry2] at spec2
    rcases hE2 : (PromptOptimizer.optimizeTry
        (PromptOptimizer.optimizeTry st req1 ext1).1 req2 ext2).2.2 with e2 | res2
    · rw [hE2] at hOk2
      cases hOk2
    have hres2 := spec2.2.2.2.2 res2 hE2
    have hs2 : structureOf (PromptOptimizer.optimizeTry
        (PromptOptimizer.optimizeTry st req1 ext1).1 req2 ext2).1.heap
          res2.componentAddrs =
        structureOf (PromptOptimizer.optimizeTry st req1 ext1).1.heap
          res1.componentAddrs := by
      rw [hres2.1, hres1.1, spec2.2.2.2.1]
      unfold structureOf
      rw [readComps_append_range']
    refine ⟨spec2.1, ?_, ?_⟩
    · unfold tryResultStructure
      rw [hE1, hE2]
      exact congrArg some hs2
    · unfold tryResultScore
      rw [hE1, hE2]
      exact congrArg some (hres2.2.trans hres1.2.symm)

/-- C6 witness: two concrete back-to-back calls with the same targets; the second
is served from the cache with identical structure and score and no solver call. -/
theorem C6_second_call_served_from_cache_witness :
    (PromptOptimizer.optimizeTry
      (PromptOptimizer.optimizeTry (initialSysState [])
        ⟨"hi", [.deduction], [.precision], "gpt-4", none⟩ benignExternals).1
      ⟨"hi", [.deduction], [.precision], "gpt-4", none⟩ benignExternals).2.1 = false ∧
    tryResultStructure (PromptOptimizer.optimizeTry
      (PromptOptimizer.optimizeTry (initialSysState [])
        ⟨"hi", [.deduction], [.precision], "gpt-4", none⟩ benignExternals).1
      ⟨"hi", [.deduction], [.precision], "gpt-4", none⟩ benignExternals) =
      tryResultStructure (PromptOptimizer.optimizeTry (initialSysState [])
        ⟨"hi", [.deduction], [.precision], "gpt-4", none⟩ benignExternals) ∧
    tryResultScore (PromptOptimizer.optimizeTry
      (PromptOptimizer.optimizeTry (initialSysState [])
        ⟨"hi", [.deduction], [.precision], "gpt-4", none⟩ benignExternals).1
      ⟨"hi", [.deduction], [.precision], "gpt-4", none⟩ benignExternals) =
      tryResultScore (PromptOptimizer.optimizeTry (initialSysState [])
        ⟨"hi", [.deduction], [.precision], "gpt-4", none⟩ benignExternals) :=
  C6_second_call_served_from_cache (initialSysState [])
    ⟨"hi", [.deduction], [.precision], "gpt-4", none⟩
    ⟨"hi", [.deduction], [.precision], "gpt-4", none⟩
    benignExternals benignExternals mockAnalysis mockAnalysis
    (by decide) rfl rfl (List.Perm.refl _) (List.Perm.refl _) rfl rfl
    (by decide) (by decide)
